import Mathlib

/-!
Verification development for the compute-job supervisor in
matador/compute/compute.py (class ComputeTask).  Each definition is a
shallow embedding of the corresponding Python function; theorems check
the natural-language specification against those definitions.
-/

deriving instance DecidableEq for Except

namespace Matador

/-! ## Iteration schedule construction, from ComputeTask._setup_relaxation -/

/-- Errors that can abort schedule construction in _setup_relaxation:
a CalculationError when the structure already performed more geometry
iterations than allowed, a ZeroDivisionError from the unconditional
ceil division by fine_iter, and a CriticalError when the resulting
schedule is empty. -/
inductive SetupError where
  | alreadyExceeded
  | divisionByZero
  | emptySchedule
  deriving DecidableEq, Repr

/-- Whether the calculation document requests the tpsd geometry method,
embedding the test calc_doc[geom_method].lower() == tpsd guarded by the
key-presence check. -/
def isTpsd (geomMethod : Option String) : Bool :=
  match geomMethod with
  | some m => m.toLower = "tpsd"
  | none => false

/-- The rough-step iteration count actually used: rough_iter is raised
to 3 when the geometry method is tpsd and rough_iter is below 3. -/
def effectiveRoughIter (geomMethod : Option String) (roughIter : Nat) : Nat :=
  if isTpsd geomMethod ∧ roughIter < 3 then 3 else roughIter

/-- Embedding of the schedule construction in _setup_relaxation
(compute.py lines 1278-1313).  Inputs: the requested geom_max_iter, the
already-completed geom_iter (0 when the key is absent), the optional
geom_method string, and the rough / rough_iter / fine_iter policy
parameters.  Returns the list of per-invocation iteration budgets, or
the error raised during construction. -/
def setup_relaxation (geomMaxIter geomIter : Nat) (geomMethod : Option String)
    (rough roughIter fineIter : Nat) : Except SetupError (List Nat) :=
  if geomMaxIter < geomIter then .error .alreadyExceeded
  else
    let rIter := effectiveRoughIter geomMethod roughIter
    let sched := List.replicate rough rIter
    let remaining : Int := ((geomMaxIter - geomIter : Nat) : Int) - ((rough * rIter : Nat) : Int)
    if fineIter = 0 then .error .divisionByZero
    else
      let sched2 :=
        if 0 < remaining then
          if remaining < (fineIter : Int) then sched ++ [remaining.toNat]
          else sched ++ List.replicate ((remaining.toNat + fineIter - 1) / fineIter) fineIter
        else sched
      if sched2 = [] then .error .emptySchedule else .ok sched2

/-- C6 counterexample: with geom_iter = geom_max_iter = 5 (so geom_iter is
greater than or equal to geom_max_iter) and default policy parameters,
schedule construction does not raise: the source test at line 1285 is the
strict comparison geom_iter > geom_max_iter, so equality passes and an
iteration schedule [2,2,2,2] is produced. -/
theorem c6_equality_not_raised :
    (5 : Nat) ≥ 5 ∧ setup_relaxation 5 5 none 4 2 20 = .ok [2, 2, 2, 2] := by
  decide

/-- C6 (amended): if the structure document carries geom_iter strictly
greater than geom_max_iter, then schedule construction raises the
structure-level CalculationError before any child invocation (the check
sits at the top of _setup_relaxation, before the schedule is built and
before the relaxation loop launches any process). -/
theorem c6_geom_iter_exceeded_amended (geomMaxIter geomIter : Nat)
    (geomMethod : Option String) (rough roughIter fineIter : Nat)
    (h : geomMaxIter < geomIter) :
    setup_relaxation geomMaxIter geomIter geomMethod rough roughIter fineIter
      = .error .alreadyExceeded := by
  simp [setup_relaxation, h]

/-- C6 witness: the amended theorem applied at geom_max_iter = 5,
geom_iter = 6. -/
theorem c6_geom_iter_exceeded_witness :
    5 < 6 ∧ setup_relaxation 5 6 none 4 2 20 = .error .alreadyExceeded :=
  ⟨by decide, c6_geom_iter_exceeded_amended 5 6 none 4 2 20 (by decide)⟩

/-- C1 counterexample: the schedule-sum invariant fails as stated.  With
geom_max_iter = 5, geom_iter = 0, rough = 5, rough_iter = 10 and
fine_iter = 1, construction succeeds with schedule [10,10,10,10,10],
whose sum 50 exceeds max_iter + fine_iter = 5 + 1: the rough block is
never clipped to the remaining iteration budget. -/
theorem c1_sum_bound_fails :
    setup_relaxation 5 0 none 5 10 1 = .ok (List.replicate 5 10)
    ∧ ¬ ((List.replicate 5 10).sum ≤ (5 - 0) + 1) := by
  decide

/-- C1 (amended): whenever _setup_relaxation returns a schedule, (a) each
rough step uses an iteration count of at least 3 when geom_method is
tpsd, (b) the sum of the schedule is at most max_iter + fine_iter
provided the rough block rough * effective_rough_iter itself fits inside
max_iter + fine_iter (the condition the counterexample violates), and
(c) the schedule is nonempty; when the schedule would be empty,
construction instead fails with a fatal CriticalError. -/
theorem c1_schedule_invariants_amended (geomMaxIter geomIter : Nat)
    (geomMethod : Option String) (rough roughIter fineIter : Nat)
    (sched : List Nat)
    (h : setup_relaxation geomMaxIter geomIter geomMethod rough roughIter fineIter
      = .ok sched) :
    (isTpsd geomMethod = true → ∀ x ∈ sched.take rough, 3 ≤ x)
    ∧ (rough * effectiveRoughIter geomMethod roughIter
          ≤ (geomMaxIter - geomIter) + fineIter →
        sched.sum ≤ (geomMaxIter - geomIter) + fineIter)
    ∧ sched ≠ [] := by
  have hTpsd : isTpsd geomMethod = true → 3 ≤ effectiveRoughIter geomMethod roughIter := by
    intro ht
    unfold effectiveRoughIter
    split
    · omega
    · next hcond =>
      rw [ht] at hcond
      simp at hcond
      omega
  have hTake : ∀ t : List Nat,
      (List.replicate rough (effectiveRoughIter geomMethod roughIter) ++ t).take rough
        = List.replicate rough (effectiveRoughIter geomMethod roughIter) := by
    intro t
    exact List.take_left' (List.length_replicate rough _)
  have hsum_rep : (List.replicate rough (effectiveRoughIter geomMethod roughIter)).sum
      = rough * effectiveRoughIter geomMethod roughIter := by
    rw [List.sum_replicate, smul_eq_mul]
  simp only [setup_relaxation] at h
  split_ifs at h with hGeom hFine hpos hlt hE1 hE2 hE3
  all_goals
    have hsched := Except.ok.inj h
  all_goals subst hsched
  all_goals refine ⟨fun ht x hx => ?_, fun hfit => ?_, by assumption⟩
  all_goals
    first
    | -- tpsd bound for the rough block when a fine tail is appended
      (rw [hTake] at hx
       exact (List.eq_of_mem_replicate hx) ▸ hTpsd ht)
    | -- tpsd bound when the schedule is exactly the rough block
      (exact (List.eq_of_mem_replicate (List.mem_of_mem_take hx)) ▸ hTpsd ht)
    | -- sum bound: rough block plus one short fine step of the residual
      (rw [List.sum_append, hsum_rep]
       simp only [List.sum_cons, List.sum_nil]
       omega)
    | -- sum bound: rough block plus ceil-many full fine steps
      (rw [List.sum_append, hsum_rep, List.sum_replicate, smul_eq_mul]
       have hdiv := Nat.div_mul_le_self
         (((((geomMaxIter - geomIter : Nat) : Int)
           - ((rough * effectiveRoughIter geomMethod roughIter : Nat) : Int)).toNat
             + fineIter - 1)) fineIter
       omega)
    | -- sum bound: schedule is exactly the rough block
      (rw [hsum_rep]
       exact hfit)

/-- C1 witness: the amended theorem applied to the default policy
(rough = 4, rough_iter = 2, fine_iter = 20) with geom_max_iter = 100 and
no completed iterations; the schedule is [2,2,2,2,20,20,20,20,20]. -/
theorem c1_schedule_invariants_witness :
    ([2, 2, 2, 2, 20, 20, 20, 20, 20] : List Nat).sum ≤ (100 - 0) + 20
    ∧ ([2, 2, 2, 2, 20, 20, 20, 20, 20] : List Nat) ≠ [] := by
  have h := c1_schedule_invariants_amended 100 0 none 4 2 20
    [2, 2, 2, 2, 20, 20, 20, 20, 20] (by decide)
  exact ⟨h.2.1 (by decide), h.2.2⟩

/-! ## Walltime deadline check, from the polling loop in ComputeTask.relax -/

/-- Embedding of the walltime test at compute.py lines 512-519.  Times are
in seconds; run_elapsed is now - start_time; the loop raises WalltimeError
exactly when run_elapsed > abs(max_walltime - 5 * polltime). -/
def walltime_check (maxWalltime polltime startTime now : Int) : Bool :=
  decide (now - startTime > |maxWalltime - 5 * polltime|)

/-- C2 counterexample: with max_walltime = 10 and polltime = 30, at the
moment the run starts (now = start_time = 0) the global deadline
start_time + max_walltime is only 10 seconds away, well within
5 * polltime = 150 seconds, yet no WalltimeError is raised: the absolute
value in abs(max_walltime - 5 * polltime) flips the comparison threshold
to 140 seconds of elapsed time. -/
theorem c2_walltime_not_raised :
    ((0 : Int) + 10 - 0 < 5 * 30) ∧ walltime_check 10 30 0 0 = false := by
  decide

/-- C2 (amended): for valid configurations with 5 * polltime at most
max_walltime, whenever the global deadline start_time + max_walltime is
strictly within 5 * polltime seconds of the current time, the polling
loop raises WalltimeError. -/
theorem c2_walltime_raises_amended (maxWalltime polltime startTime now : Int)
    (hvalid : 5 * polltime ≤ maxWalltime)
    (hwithin : startTime + maxWalltime - now < 5 * polltime) :
    walltime_check maxWalltime polltime startTime now = true := by
  unfold walltime_check
  rw [abs_of_nonneg (by omega : (0 : Int) ≤ maxWalltime - 5 * polltime)]
  simp only [decide_eq_true_eq]
  omega

/-- C2 witness: the amended theorem at max_walltime = 3600 s,
polltime = 6 s, start_time = 0, now = 3595. -/
theorem c2_walltime_raises_witness :
    (5 * 6 ≤ (3600 : Int)) ∧ ((0 : Int) + 3600 - 3595 < 5 * 6)
    ∧ walltime_check 3600 6 0 3595 = true :=
  ⟨by decide, by decide, c2_walltime_raises_amended 3600 6 0 3595 (by decide) (by decide)⟩

/-! ## Memcheck gate, from ComputeTask.do_memcheck and run_castep -/

/-- Outcome of the memcheck phase of run_castep: either the driver
proceeds to launch the full (non-dryrun) child, or
MaxMemoryEstimateExceeded is raised before any full child is started. -/
inductive MemcheckOutcome where
  | proceed (estimate : Option ℚ)
  | memoryExceeded
  deriving DecidableEq, Repr

/-- Embedding of do_memcheck (compute.py lines 940-987): the dryrun result
is abstracted as the optional scraped estimated_mem_MB value (none when
the scrape failed or reported no estimate, in which case
MaxMemoryEstimateExceeded is raised); otherwise the estimate is
multiplied by ncores and nnodes when they are set.  Memory quantities are
modelled as rationals. -/
def do_memcheck (scraped ncores nnodes : Option ℚ) : Except Unit ℚ :=
  match scraped with
  | none => .error ()
  | some est =>
    let est1 := match ncores with | some c => est * c | none => est
    let est2 := match nnodes with | some n => est1 * n | none => est1
    .ok est2

/-- Embedding of the memcheck block of run_castep (compute.py lines
343-352): when memcheck is enabled the estimate is computed by
do_memcheck and the run is aborted with MaxMemoryEstimateExceeded
whenever the estimate exceeds 0.9 * maxmem; only on proceed does
run_castep go on to launch a full child. -/
def run_castep_memcheck_gate (memcheck : Bool) (scraped ncores nnodes : Option ℚ)
    (maxmem : ℚ) : MemcheckOutcome :=
  if memcheck then
    match do_memcheck scraped ncores nnodes with
    | .error _ => .memoryExceeded
    | .ok est => if est > (9 / 10) * maxmem then .memoryExceeded else .proceed (some est)
  else .proceed none

/-- C5 counterexample: with an estimate of exactly 0.9 * maxmem
(estimate 9 MB, maxmem 10 MB) the claimed threshold "at least
0.9 * maxmem" is met, yet the gate lets the run proceed to a full child
launch: the source comparison at line 350 is strictly greater than. -/
theorem c5_boundary_not_raised :
    (9 : ℚ) ≥ (9 / 10) * 10
    ∧ run_castep_memcheck_gate true (some 9) none none 10 = .proceed (some 9) := by
  constructor
  · norm_num
  · norm_num [run_castep_memcheck_gate, do_memcheck]

/-- C5 (amended): when memcheck is enabled, a dryrun reporting no memory
estimate raises MaxMemoryEstimateExceeded, and a computed estimate
strictly greater than 0.9 * maxmem raises MaxMemoryEstimateExceeded, so
the driver never launches a full (non-dryrun) child for this
structure. -/
theorem c5_memcheck_gate_amended (scraped ncores nnodes : Option ℚ) (maxmem : ℚ) :
    (scraped = none →
      run_castep_memcheck_gate true scraped ncores nnodes maxmem = .memoryExceeded)
    ∧ (∀ est : ℚ, do_memcheck scraped ncores nnodes = .ok est →
        (9 / 10) * maxmem < est →
        run_castep_memcheck_gate true scraped ncores nnodes maxmem = .memoryExceeded) := by
  constructor
  · intro hnone
    subst hnone
    rfl
  · intro est hest hgt
    unfold run_castep_memcheck_gate
    rw [hest]
    simp [hgt]

/-- C5 witness: the amended theorem at a dryrun with no estimate, and at
an estimate of 20 MB against maxmem = 10 MB. -/
theorem c5_memcheck_gate_witness :
    run_castep_memcheck_gate true none none none 5 = .memoryExceeded
    ∧ run_castep_memcheck_gate true (some 20) none none 10 = .memoryExceeded :=
  ⟨(c5_memcheck_gate_amended none none none 5).1 rfl,
   (c5_memcheck_gate_amended (some 20) none none 10).2 20 rfl (by norm_num)⟩

/-! ## Walltime cleanup, from ComputeTask.times_up -/

/-- Observable actions the driver performs on the child process during
cleanup: sending a terminate signal, waiting for the child to exit, and
copying a file from the compute directory back to the root folder. -/
inductive DriverAction where
  | terminate
  | waitChild
  | copyToRoot (fname : String)
  deriving DecidableEq, Repr

/-- Abstract filesystem state: the file names present in the root folder
and in the per-host compute directory. -/
structure FsState where
  rootFiles : List String
  computeFiles : List String
  deriving DecidableEq, Repr

/-- The lock file name for a seed, root-folder relative. -/
def lockName (seed : String) : String := seed ++ ".res.lock"

/-- Python str.startswith, computed on the underlying character lists. -/
def strStartsWith (s pre : String) : Bool := pre.data.isPrefixOf s.data

/-- Python str.endswith, computed on the underlying character lists. -/
def strEndsWith (s suf : String) : Bool := suf.data.isSuffixOf s.data

/-- Whether a file name matches the glob seed.* used by times_up. -/
def seedArtifact (seed fname : String) : Bool := strStartsWith fname (seed ++ ".")

/-- Embedding of times_up (compute.py lines 1412-1430), run on the
WalltimeError path of relax before the error propagates: terminate the
child (with no wait), then, when a compute directory is in use, copy
every file matching seed.* from the compute directory back to the root
folder and remove it from the compute directory, and finally delete the
lock file root/seed.res.lock if it exists.  Returns the new filesystem
state and the list of process actions performed, in order. -/
def times_up (computeDirSet : Bool) (seed : String) (s : FsState) :
    FsState × List DriverAction :=
  let moved := if computeDirSet then s.computeFiles.filter (fun f => seedArtifact seed f) else []
  let acts := [DriverAction.terminate] ++ moved.map DriverAction.copyToRoot
  let root1 := s.rootFiles ++ moved
  let compute1 :=
    if computeDirSet then s.computeFiles.filter (fun f => !(seedArtifact seed f))
    else s.computeFiles
  let root2 := root1.filter (fun f => !(f == lockName seed))
  (⟨root2, compute1⟩, acts)

/-- C3 counterexample: on a concrete walltime-expired cleanup (compute
directory in use, one intermediate seed.castep artifact, lock file
present) the driver never waits for the terminated child to exit:
times_up calls process.terminate() but no wait or communicate follows on
this path. -/
theorem c3_no_wait_action :
    DriverAction.waitChild
      ∉ (times_up true "seed" ⟨["seed.res.lock"], ["seed.castep"]⟩).2 := by
  decide

/-- C3 (amended): on every walltime-expired path, before the error
propagates the driver sends a terminate signal to the child, deletes the
lock file root/seed.res.lock, and copies every intermediate seed.*
artifact of the compute directory back to the root folder (vacuously
when no compute directory is configured); it does not wait for the child
to exit. -/
theorem c3_times_up_cleanup_amended (computeDirSet : Bool) (seed : String) (s : FsState) :
    DriverAction.terminate ∈ (times_up computeDirSet seed s).2
    ∧ lockName seed ∉ (times_up computeDirSet seed s).1.rootFiles
    ∧ (∀ f ∈ s.computeFiles, seedArtifact seed f = true → computeDirSet = true →
        DriverAction.copyToRoot f ∈ (times_up computeDirSet seed s).2)
    ∧ DriverAction.waitChild ∉ (times_up computeDirSet seed s).2 := by
  refine ⟨by simp [times_up], ?_, ?_, ?_⟩
  · intro hmem
    simp only [times_up, List.mem_filter] at hmem
    simp at hmem
  · intro f hf hart hdir
    simp only [times_up, hdir, if_true, List.mem_append, List.mem_cons, List.mem_map]
    right
    exact ⟨f, List.mem_filter.mpr ⟨hf, hart⟩, rfl⟩
  · intro hmem
    simp only [times_up, List.mem_append, List.mem_cons, List.mem_map] at hmem
    rcases hmem with h | h
    · simp at h
    · obtain ⟨g, _, hg⟩ := h
      exact DriverAction.noConfusion hg

/-- C3 witness: the amended theorem on a compute directory holding
seed.castep and seed.res with the lock file present in root. -/
theorem c3_times_up_cleanup_witness :
    DriverAction.terminate
      ∈ (times_up true "seed" ⟨["seed.res.lock"], ["seed.castep", "seed.res"]⟩).2
    ∧ lockName "seed"
      ∉ (times_up true "seed" ⟨["seed.res.lock"], ["seed.castep", "seed.res"]⟩).1.rootFiles
    ∧ DriverAction.copyToRoot "seed.castep"
      ∈ (times_up true "seed" ⟨["seed.res.lock"], ["seed.castep", "seed.res"]⟩).2 := by
  have h := c3_times_up_cleanup_amended true "seed" ⟨["seed.res.lock"], ["seed.castep", "seed.res"]⟩
  exact ⟨h.1, h.2.1, h.2.2.1 "seed.castep" (by decide) (by decide) rfl⟩

/-! ## Retry policy of the relaxation loop, from ComputeTask.relax -/

/-- Abstraction of one scheduled step of the relaxation loop: whether
_catch_castep_errors reported errors, whether it returned a remedy,
whether castep2dict scraped successfully (otherwise opti_dict is an
Exception), and the scraped optimised flag. -/
structure StepOutcome where
  errorsPresent : Bool
  remedyAvail : Bool
  scrapeOk : Bool
  optimised : Bool
  deriving DecidableEq, Repr

/-- Result of the relaxation loop: a successful break, a raised
CalculationError (StructureFailed), or falling off the end of the
schedule (possible only when the last step took the remedy path). -/
inductive RelaxResult where
  | success
  | structureFailed
  | exhausted
  deriving DecidableEq, Repr

/-- Embedding of the control flow of the relaxation loop in relax
(compute.py lines 470-611), abstracted over the per-step outcomes.
State threaded through the loop: the reopt rerun flag, the _num_retries
counter, and (for the statement of the retry-cap property) a count of
how many times the remedy-retry path at lines 538-539 was taken, i.e.
errors were present, a remedy was available and _num_retries had not
passed _max_num_retries.  Each step: a non-remediable or over-budget
error raises CalculationError; a scrape failure with no remedy raises
CalculationError; when a remedy is available post-processing is skipped
and the remedy is applied, incrementing _num_retries; otherwise the
reopt gate runs, breaking with success, raising on the last step, or
carrying the updated rerun flag into the next step. -/
def relax_steps (reopt : Bool) (maxRetries : Nat) :
    List StepOutcome → Bool → Nat → Nat → RelaxResult × Nat
  | [], _rerun, _numRetries, takes => (.exhausted, takes)
  | o :: rest, rerun, numRetries, takes =>
    if o.errorsPresent && !(o.remedyAvail && decide (numRetries ≤ maxRetries)) then
      (.structureFailed, takes)
    else if !o.scrapeOk && !o.remedyAvail then
      (.structureFailed, takes)
    else
      let isRetry := o.errorsPresent && o.remedyAvail && decide (numRetries ≤ maxRetries)
      let opt := if o.scrapeOk then o.optimised else false
      let numRetries1 := if o.remedyAvail then numRetries + 1 else numRetries
      let takes1 := if isRetry then takes + 1 else takes
      if o.remedyAvail then
        relax_steps reopt maxRetries rest rerun numRetries1 takes1
      else
        let rerun1 := if reopt && rerun && !opt then false else rerun
        if reopt && !rerun1 && opt then
          relax_steps reopt maxRetries rest true numRetries1 takes1
        else if (!reopt || rerun1) && opt then (.success, takes1)
        else if rest.isEmpty then (.structureFailed, takes1)
        else relax_steps reopt maxRetries rest rerun1 numRetries1 takes1

set_option maxHeartbeats 1600000 in
/-- Helper invariant: starting from retry counter n, the loop can add at
most maxRetries + 1 - n further remedy-retry takes, because every remedy
application increments _num_retries and a retry take requires
_num_retries at most maxRetries. -/
theorem relax_steps_takes_bound (reopt : Bool) (maxRetries : Nat) :
    ∀ (steps : List StepOutcome) (rerun : Bool) (numRetries takes : Nat),
      (relax_steps reopt maxRetries steps rerun numRetries takes).2
        ≤ takes + (maxRetries + 1 - numRetries) := by
  intro steps
  induction steps with
  | nil =>
    intro rerun n t
    exact Nat.le_add_right t _
  | cons o rest ih =>
    intro rerun n t
    by_cases hle : n ≤ maxRetries
    · have hd : decide (n ≤ maxRetries) = true := by simp [hle]
      simp only [relax_steps, hd, Bool.and_true, Bool.and_false]
      split_ifs
      all_goals first
        | exact le_trans (ih _ _ _) (by omega)
        | exact (by omega : t ≤ t + (maxRetries + 1 - n))
        | exact (by omega : t + 1 ≤ t + (maxRetries + 1 - n))
        | exact (‹False›).elim
        | exact absurd
            ((Bool.and_eq_true o.errorsPresent o.remedyAvail).mp
              ‹(o.errorsPresent && o.remedyAvail) = true›).2
            ‹¬ o.remedyAvail = true›
    · have hd : decide (n ≤ maxRetries) = false := by simp [hle]
      simp only [relax_steps, hd, Bool.and_true, Bool.and_false]
      split_ifs
      all_goals first
        | exact le_trans (ih _ _ _) (by omega)
        | exact (by omega : t ≤ t + (maxRetries + 1 - n))
        | exact (by omega : t + 1 ≤ t + (maxRetries + 1 - n))
        | exact (‹False›).elim

/-- C4 counterexample: with the default cap max_retries = 2, a run of
four consecutive steps that each error with an available remedy takes
the remedy path three times (at retry counters 0, 1 and 2, each
satisfying the check _num_retries <= _max_num_retries) before the fourth
error raises; three exceeds the claimed cap of two. -/
theorem c4_retry_cap_exceeded :
    (relax_steps false 2
        (List.replicate 4 ⟨true, true, true, false⟩) false 0 0).2 = 3
    ∧ ¬ ((relax_steps false 2
        (List.replicate 4 ⟨true, true, true, false⟩) false 0 0).2 ≤ 2) := by
  decide

/-- C4 (amended): across one structure the remedy-retry path is taken at
most max_retries + 1 times (default cap 2, hence at most 3 takes), and
once the counter exceeds max_retries an error with an available remedy
raises CalculationError (StructureFailed) instead of retrying. -/
theorem c4_retry_cap_amended (reopt : Bool) (maxRetries : Nat) (steps : List StepOutcome) :
    (relax_steps reopt maxRetries steps false 0 0).2 ≤ maxRetries + 1
    ∧ (∀ (o : StepOutcome) (rest : List StepOutcome) (rerun : Bool) (n t : Nat),
        o.errorsPresent = true → o.remedyAvail = true → maxRetries < n →
        relax_steps reopt maxRetries (o :: rest) rerun n t = (.structureFailed, t)) := by
  constructor
  · have h := relax_steps_takes_bound reopt maxRetries steps false 0 0
    omega
  · intro o rest rerun n t h1 h2 h3
    have hd : decide (n ≤ maxRetries) = false := by
      simp
      omega
    simp [relax_steps, h1, h2, hd]

/-- C4 witness: the amended theorem at the default cap 2, on a
single-step schedule for the bound, and on an erroring remedied step
with the counter already at 5 for the over-budget raise. -/
theorem c4_retry_cap_witness :
    (relax_steps false 2 [⟨true, true, true, false⟩] false 0 0).2 ≤ 2 + 1
    ∧ relax_steps false 2
        [⟨true, true, true, false⟩, ⟨false, false, true, true⟩] false 5 7
      = (.structureFailed, 7) := by
  have h := c4_retry_cap_amended false 2 [⟨true, true, true, false⟩]
  exact ⟨h.1, h.2 ⟨true, true, true, false⟩ [⟨false, false, true, true⟩] false 5 7
    rfl rfl (by decide)⟩

/-! ## Executable template parsing, from ComputeTask.parse_executable -/

/-- Python str.split with no argument, at the character level: cutting at
every whitespace character yields segments, possibly empty. -/
def pySplitChars : List Char → List (List Char)
  | [] => [[]]
  | c :: rest =>
    if Char.isWhitespace c then [] :: pySplitChars rest
    else
      match pySplitChars rest with
      | [] => [[c]]
      | p :: ps => (c :: p) :: ps

/-- Python str.split() on a string: split at whitespace and drop the
empty segments. -/
def pySplitWhitespace (t : String) : List String :=
  ((pySplitChars t.data).map (fun l => String.mk l)).filter (fun s => !s.data.isEmpty)

/-- Splitting a character list at each non-overlapping, left-to-right
occurrence of the literal pattern dollar-s-e-e-d, the scan Python uses
for both the membership test and str.replace with that pattern. -/
def splitOnSeed : List Char → List (List Char)
  | [] => [[]]
  | '$' :: 's' :: 'e' :: 'e' :: 'd' :: rest => [] :: splitOnSeed rest
  | c :: rest =>
    match splitOnSeed rest with
    | [] => [[c]]
    | p :: ps => (c :: p) :: ps

/-- Python membership test for the literal sub-token in a template token:
the token splits into at least two pieces. -/
def containsSeedTok (t : String) : Bool := decide (2 ≤ (splitOnSeed t.data).length)

/-- Joining split pieces with the replacement text between consecutive
pieces; together with splitOnSeed this is Python str.replace for the
seed pattern. -/
def joinWithSeed (rep : List Char) : List (List Char) → List Char
  | [] => []
  | [p] => p
  | p :: q :: ps => p ++ rep ++ joinWithSeed rep (q :: ps)

/-- Python item.replace of the seed pattern by the seed string. -/
def pyReplaceSeed (seed t : String) : String :=
  String.mk (joinWithSeed seed.data (splitOnSeed t.data))

/-- Embedding of parse_executable (compute.py lines 799-818): split the
template on whitespace; substitute the seed into every token containing
the literal sub-token; if no token contained it, append the seed as a
final argv element. -/
def parse_executable (executable seed : String) : List String :=
  let toks := pySplitWhitespace executable
  let command := toks.map (fun item =>
    if containsSeedTok item then pyReplaceSeed seed item else item)
  if toks.any containsSeedTok then command else command ++ [seed]

/-- A substituted token literally carries the seed string between the
first two split pieces. -/
theorem pyReplaceSeed_has_seed (seed t : String) (h : containsSeedTok t = true) :
    ∃ a b : String, pyReplaceSeed seed t = a ++ seed ++ b := by
  rw [containsSeedTok, decide_eq_true_eq] at h
  unfold pyReplaceSeed
  rcases hsp : splitOnSeed t.data with _ | ⟨p, _ | ⟨q, ps⟩⟩
  · rw [hsp] at h
    simp at h
  · rw [hsp] at h
    simp at h
  · exact ⟨⟨p⟩, ⟨joinWithSeed seed.data (q :: ps)⟩, rfl⟩

/-- When no token contains the seed sub-token, the substitution map is
the identity. -/
theorem map_subst_id (seed : String) (l : List String)
    (hl : ∀ x ∈ l, containsSeedTok x = false) :
    l.map (fun item => if containsSeedTok item then pyReplaceSeed seed item else item)
      = l := by
  induction l with
  | nil => rfl
  | cons x xs ih =>
    have hx := hl x (List.mem_cons_self x xs)
    simp only [List.map_cons, hx, Bool.false_eq_true, if_false,
      ih (fun y hy => hl y (List.mem_cons_of_mem x hy))]

/-- C7: argv parsing round-trip.  If some whitespace-split token of the
template contains the literal seed sub-token, the parsed argv is the
token list with the seed substituted into those tokens — same length, no
extra append, and the seed string literally occurs inside some argv
element; if no token contains it, the parsed argv is exactly the token
list followed by one trailing seed. -/
theorem c7_parse_executable_roundtrip (executable seed : String) :
    ((pySplitWhitespace executable).any containsSeedTok = true →
      parse_executable executable seed
        = (pySplitWhitespace executable).map
            (fun item => if containsSeedTok item then pyReplaceSeed seed item else item)
      ∧ (parse_executable executable seed).length = (pySplitWhitespace executable).length
      ∧ ∃ w ∈ parse_executable executable seed, ∃ a b : String, w = a ++ seed ++ b)
    ∧ ((pySplitWhitespace executable).any containsSeedTok = false →
      parse_executable executable seed = pySplitWhitespace executable ++ [seed]) := by
  constructor
  · intro hfound
    have heq : parse_executable executable seed
        = (pySplitWhitespace executable).map
            (fun item => if containsSeedTok item then pyReplaceSeed seed item else item) := by
      unfold parse_executable
      rw [if_pos hfound]
    refine ⟨heq, by rw [heq, List.length_map], ?_⟩
    obtain ⟨itm, hmem, hcontains⟩ := List.any_eq_true.mp hfound
    obtain ⟨a, b, hab⟩ := pyReplaceSeed_has_seed seed itm hcontains
    refine ⟨pyReplaceSeed seed itm, ?_, a, b, hab⟩
    rw [heq]
    exact List.mem_map.mpr ⟨itm, hmem, by rw [if_pos hcontains]⟩
  · intro hnone
    unfold parse_executable
    rw [if_neg (by simp [hnone]),
      map_subst_id seed _ (fun x hx => by
        have := List.any_eq_false.mp hnone x hx
        simpa using this)]

/-- C7 witness: the theorem applied to the template with a seed token
(substitution, no append) and to a bare executable name (single trailing
seed). -/
theorem c7_parse_executable_witness :
    parse_executable "pw6.x -i $seed.in" "test2"
      = (pySplitWhitespace "pw6.x -i $seed.in").map
          (fun item => if containsSeedTok item then pyReplaceSeed "test2" item else item)
    ∧ (∃ w ∈ parse_executable "pw6.x -i $seed.in" "test2",
        ∃ a b : String, w = a ++ "test2" ++ b)
    ∧ parse_executable "castep17" "test2" = pySplitWhitespace "castep17" ++ ["test2"] := by
  have h1 := (c7_parse_executable_roundtrip "pw6.x -i $seed.in" "test2").1 (by decide)
  have h2 := (c7_parse_executable_roundtrip "castep17" "test2").2 (by decide)
  exact ⟨h1.1, h1.2.2, h2⟩

/-! ## MPI command wrapping, from ComputeTask.run_command -/

/-- The MPI library choice returned by the mpi_library property. -/
inductive MpiLibrary where
  | intel
  | archer
  | slurm
  | default
  deriving DecidableEq, Repr

/-- Embedding of the command-wrapping logic of run_command (compute.py
lines 1000-1031), applied to the already parsed executable argv.  The
nesting mirrors the source exactly: in particular, for a single node the
source branches on node is None, then elif node is not None, so the
final else that would prepend nice -n 15 mpirun -n ncores is
unreachable, and the inner chain for node = None has no default branch
for ncores > 1 with the default MPI library. -/
def run_command_wrap (nnodes : Option Nat) (node : Option String) (ncores : Nat)
    (cwd : String) (lib : MpiLibrary) (command : List String) : List String :=
  if nnodes = none ∨ nnodes = some 1 then
    if node = none then
      if ncores = 1 ∧ node = none then ["nice", "-n", "15"] ++ command
      else if lib = .archer then ["aprun", "-n", toString ncores] ++ command
      else if lib = .slurm then
        ["srun", "--exclusive", "-N", "1", "-n", toString ncores] ++ command
      else if lib = .intel then ["mpirun", "-n", toString ncores] ++ command
      else command
    else if node ≠ none then
      ["ssh", node.getD "", "cd", cwd ++ ";", "mpirun", "-n", toString ncores] ++ command
    else
      ["nice", "-n", "15", "mpirun", "-n", toString ncores] ++ command
  else
    if lib = .archer then
      ["aprun", "-n", toString (ncores * nnodes.getD 1), "-N", toString ncores,
        "-S", "12", "-d", "1"] ++ command
    else if lib = .slurm then
      ["srun", "--exclusive", "-N", toString (nnodes.getD 1), "-n",
        toString (ncores * nnodes.getD 1)] ++ command
    else if lib = .intel then
      ["mpirun", "-n", toString (ncores * nnodes.getD 1), "-ppn", toString ncores] ++ command
    else
      ["mpirun", "-n", toString (ncores * nnodes.getD 1), "-npernode", toString ncores] ++ command

/-- C8: at the failing input (one node, four cores, no remote node,
default MPI library) the built command is the bare parsed argv with no
prefix at all, not the documented nice -n 15 mpirun -n 4 prefix: the
else branch carrying that prefix sits after an exhaustive
if/elif on node and is dead code. -/
theorem c8_default_mpi_prefix_missing :
    run_command_wrap (some 1) none 4 "/work" .default ["castep", "seed1"]
      = ["castep", "seed1"]
    ∧ run_command_wrap (some 1) none 4 "/work" .default ["castep", "seed1"]
      ≠ ["nice", "-n", "15", "mpirun", "-n", "4", "castep", "seed1"] := by
  constructor
  · rfl
  · decide

/-! ## CalcDoc construction, from ComputeTask.run_castep -/

/-- Documents are key-value mappings; values are abstracted as
strings. -/
def DocMap : Type := String → Option String

/-- The structural keys stripped from the cell options at compute.py
line 331. -/
def bad_keys : List String :=
  ["atom_types", "positions_frac", "positions_abs", "lattice_cart", "lattice_abc"]

/-- Python dict.update: keys of the second mapping win. -/
def dict_update (d e : DocMap) : DocMap :=
  fun k => match e k with
  | some v => some v
  | none => d k

/-- The cell-option filtering at compute.py line 332: every key in
bad_keys is dropped, all other keys are kept. -/
def strip_bad_keys (cell : DocMap) : DocMap :=
  fun k => if k ∈ bad_keys then none else cell k

/-- Embedding of the CalcDoc construction at compute.py lines 328-334:
deep-copy the structure document, update with the stripped cell options,
then update with the parameter options. -/
def run_castep_calc_doc (res cell param : DocMap) : DocMap :=
  dict_update (dict_update res (strip_bad_keys cell)) param

/-- C9: for every cell-options input, the five structural keys of the
constructed CalcDoc are exactly those of the structure document; the
parameter options are CASTEP param keys and do not bind the structural
cell keys, which the hypothesis records. -/
theorem c9_cell_option_purity (res cell param : DocMap)
    (hparam : ∀ k ∈ bad_keys, param k = none) :
    ∀ k ∈ bad_keys, run_castep_calc_doc res cell param k = res k := by
  intro k hk
  simp [run_castep_calc_doc, dict_update, strip_bad_keys, hparam k hk, hk]

/-- C9 witness: the theorem applied to a structure carrying a
lattice_cart value, cell options trying to smuggle a different
lattice_cart, and empty parameter options. -/
theorem c9_cell_option_purity_witness :
    run_castep_calc_doc
      (fun k => if k = "lattice_cart" then some "structL" else none)
      (fun k => if k = "lattice_cart" then some "cellL" else none)
      (fun _ => none) "lattice_cart" = some "structL" := by
  have h := c9_cell_option_purity
    (fun k => if k = "lattice_cart" then some "structL" else none)
    (fun k => if k = "lattice_cart" then some "cellL" else none)
    (fun _ => none) (fun k _ => rfl) "lattice_cart" (by simp [bad_keys])
  rw [h]
  decide

/-! ## Tidy-up, from ComputeTask.tidy_up -/

/-- Embedding of tidy_up (compute.py lines 1344-1357) on a directory
listing: every file matching the glob seed.* is removed unless its name
ends in .res or .castep; all other files are untouched. -/
def tidy_up (seed : String) (files : List String) : List String :=
  files.filter (fun f =>
    !(strStartsWith f (seed ++ ".")
      && !(strEndsWith f ".res" || strEndsWith f ".castep")))

/-- C10: tidy_up removes exactly the seed.* files not ending in .res or
.castep: such files are gone, every file that does not match seed.* or
ends in .res or .castep survives, and no file appears that was not
already present. -/
theorem c10_tidy_up_frame (seed : String) (files : List String) :
    (∀ f ∈ files, strStartsWith f (seed ++ ".") = true →
      strEndsWith f ".res" = false → strEndsWith f ".castep" = false →
      f ∉ tidy_up seed files)
    ∧ (∀ f ∈ files,
        (strStartsWith f (seed ++ ".") = false ∨ strEndsWith f ".res" = true
          ∨ strEndsWith f ".castep" = true) →
        f ∈ tidy_up seed files)
    ∧ (∀ f ∈ tidy_up seed files, f ∈ files) := by
  refine ⟨?_, ?_, ?_⟩
  · intro f hf h1 h2 h3 hmem
    have hp := (List.mem_filter.mp hmem).2
    simp [h1, h2, h3] at hp
  · intro f hf hkeep
    refine List.mem_filter.mpr ⟨hf, ?_⟩
    rcases hkeep with h | h | h <;> simp [h]
  · intro f hf
    exact (List.mem_filter.mp hf).1

/-- C10 witness: the theorem applied to seed s1 on a directory holding
s1.cell, s1.res, s1.castep and other.param: the .cell file is removed,
the rest survive. -/
theorem c10_tidy_up_witness :
    "s1.cell" ∉ tidy_up "s1" ["s1.cell", "s1.res", "s1.castep", "other.param"]
    ∧ "s1.res" ∈ tidy_up "s1" ["s1.cell", "s1.res", "s1.castep", "other.param"]
    ∧ "other.param" ∈ tidy_up "s1" ["s1.cell", "s1.res", "s1.castep", "other.param"] := by
  have h := c10_tidy_up_frame "s1" ["s1.cell", "s1.res", "s1.castep", "other.param"]
  exact ⟨h.1 "s1.cell" (by decide) (by decide) (by decide) (by decide),
    h.2.1 "s1.res" (by decide) (Or.inr (Or.inl (by decide))),
    h.2.1 "other.param" (by decide) (Or.inl (by decide))⟩

end Matador
